import Mathlib

/-!
Verification development for the `apitool` schema-driven CRUD service
(`src/apitool/app.py`): a Flask application exposing generic collection
endpoints backed by MongoDB, with JSON-Schema validation per collection.

The embedding models:
  * JSON values (documents are Python dicts, modelled as association
    lists with unique keys in practice);
  * the MongoDB ObjectId codec (`objectid_validator`, `str(ObjectId)`);
  * the storage layer as a pure state (collection name → list of
    documents, each carrying its `_id` field), with the pymongo calls
    `insert_one` / `find_one` / `update_one` ($set semantics, no upsert)
    / `delete_one` as pure state transformers, and an injectable
    backend-failure flag standing for `errors.PyMongoError`;
  * the JSON-Schema validator (an external library, consumed as a black
    box per the architecture: modelled here for the keyword subset the
    repository's schemas use — top-level `type`, `required` and
    per-property `type` — returning the first violation's message);
  * the schema-file loader loop and the five request handlers, each
    translated gate by gate from `app.py`.

Each handler returns its HTTP response, the resulting storage state and
the list of storage calls it attempted (the trace is how "no storage
operation is attempted" is made observable).
-/

/-- JSON/BSON values. `oid` is a MongoDB ObjectId (a 12-byte value,
modelled as a natural number below `16^24`); objects are ordered field
lists, as Python dicts and BSON documents are ordered. -/
inductive Json where
  | null : Json
  | bool (b : Bool) : Json
  | num (n : Int) : Json
  | str (s : String) : Json
  | oid (i : Nat) : Json
  | arr (xs : List Json) : Json
  | obj (fields : List (String × Json)) : Json

mutual

/-- Structural equality of JSON values. -/
def Json.beq : Json → Json → Bool
  | .null, .null => true
  | .bool a, .bool b => a == b
  | .num a, .num b => a == b
  | .str a, .str b => a == b
  | .oid a, .oid b => a == b
  | .arr xs, .arr ys => beqJList xs ys
  | .obj xs, .obj ys => beqJFields xs ys
  | _, _ => false

def beqJList : List Json → List Json → Bool
  | [], [] => true
  | x :: xs, y :: ys => Json.beq x y && beqJList xs ys
  | _, _ => false

def beqJFields : List (String × Json) → List (String × Json) → Bool
  | [], [] => true
  | (k1, v1) :: xs, (k2, v2) :: ys => k1 == k2 && Json.beq v1 v2 && beqJFields xs ys
  | _, _ => false

end

mutual

theorem Json.beq_refl : (a : Json) → Json.beq a a = true
  | .null => rfl
  | .bool b => by simp [Json.beq]
  | .num n => by simp [Json.beq]
  | .str s => by simp [Json.beq]
  | .oid i => by simp [Json.beq]
  | .arr xs => beqJList_refl xs
  | .obj fs => beqJFields_refl fs

theorem beqJList_refl : (xs : List Json) → beqJList xs xs = true
  | [] => rfl
  | x :: xs => by simp [beqJList, Json.beq_refl x, beqJList_refl xs]

theorem beqJFields_refl : (fs : List (String × Json)) → beqJFields fs fs = true
  | [] => rfl
  | (k, v) :: fs => by simp [beqJFields, Json.beq_refl v, beqJFields_refl fs]

end

mutual

theorem Json.eq_of_beq : (a b : Json) → Json.beq a b = true → a = b
  | .null, .null, _ => rfl
  | .null, .bool _, h => Bool.noConfusion h
  | .null, .num _, h => Bool.noConfusion h
  | .null, .str _, h => Bool.noConfusion h
  | .null, .oid _, h => Bool.noConfusion h
  | .null, .arr _, h => Bool.noConfusion h
  | .null, .obj _, h => Bool.noConfusion h
  | .bool _, .null, h => Bool.noConfusion h
  | .bool a, .bool b, h => by
      have hab : a = b := by simpa [Json.beq] using h
      rw [hab]
  | .bool _, .num _, h => Bool.noConfusion h
  | .bool _, .str _, h => Bool.noConfusion h
  | .bool _, .oid _, h => Bool.noConfusion h
  | .bool _, .arr _, h => Bool.noConfusion h
  | .bool _, .obj _, h => Bool.noConfusion h
  | .num _, .null, h => Bool.noConfusion h
  | .num _, .bool _, h => Bool.noConfusion h
  | .num a, .num b, h => by
      have hab : a = b := by simpa [Json.beq] using h
      rw [hab]
  | .num _, .str _, h => Bool.noConfusion h
  | .num _, .oid _, h => Bool.noConfusion h
  | .num _, .arr _, h => Bool.noConfusion h
  | .num _, .obj _, h => Bool.noConfusion h
  | .str _, .null, h => Bool.noConfusion h
  | .str _, .bool _, h => Bool.noConfusion h
  | .str _, .num _, h => Bool.noConfusion h
  | .str a, .str b, h => by
      have hab : a = b := by simpa [Json.beq] using h
      rw [hab]
  | .str _, .oid _, h => Bool.noConfusion h
  | .str _, .arr _, h => Bool.noConfusion h
  | .str _, .obj _, h => Bool.noConfusion h
  | .oid _, .null, h => Bool.noConfusion h
  | .oid _, .bool _, h => Bool.noConfusion h
  | .oid _, .num _, h => Bool.noConfusion h
  | .oid _, .str _, h => Bool.noConfusion h
  | .oid a, .oid b, h => by
      have hab : a = b := by simpa [Json.beq] using h
      rw [hab]
  | .oid _, .arr _, h => Bool.noConfusion h
  | .oid _, .obj _, h => Bool.noConfusion h
  | .arr _, .null, h => Bool.noConfusion h
  | .arr _, .bool _, h => Bool.noConfusion h
  | .arr _, .num _, h => Bool.noConfusion h
  | .arr _, .str _, h => Bool.noConfusion h
  | .arr _, .oid _, h => Bool.noConfusion h
  | .arr xs, .arr ys, h => congrArg Json.arr (beqJList_eq xs ys h)
  | .arr _, .obj _, h => Bool.noConfusion h
  | .obj _, .null, h => Bool.noConfusion h
  | .obj _, .bool _, h => Bool.noConfusion h
  | .obj _, .num _, h => Bool.noConfusion h
  | .obj _, .str _, h => Bool.noConfusion h
  | .obj _, .oid _, h => Bool.noConfusion h
  | .obj _, .arr _, h => Bool.noConfusion h
  | .obj xs, .obj ys, h => congrArg Json.obj (beqJFields_eq xs ys h)

theorem beqJList_eq : (xs ys : List Json) → beqJList xs ys = true → xs = ys
  | [], [], _ => rfl
  | [], _ :: _, h => Bool.noConfusion h
  | _ :: _, [], h => Bool.noConfusion h
  | x :: xs, y :: ys, h => by
      have h1 : Json.beq x y = true ∧ beqJList xs ys = true := by
        simpa [beqJList, Bool.and_eq_true] using h
      rw [Json.eq_of_beq x y h1.1, beqJList_eq xs ys h1.2]

theorem beqJFields_eq : (xs ys : List (String × Json)) → beqJFields xs ys = true → xs = ys
  | [], [], _ => rfl
  | [], _ :: _, h => Bool.noConfusion h
  | _ :: _, [], h => Bool.noConfusion h
  | (k1, v1) :: xs, (k2, v2) :: ys, h => by
      have h1 : (k1 == k2) = true ∧ Json.beq v1 v2 = true ∧ beqJFields xs ys = true := by
        simpa [beqJFields, Bool.and_eq_true, and_assoc] using h
      have hk : k1 = k2 := by simpa using h1.1
      rw [hk, Json.eq_of_beq v1 v2 h1.2.1, beqJFields_eq xs ys h1.2.2]

end

instance : DecidableEq Json := fun a b =>
  if h : Json.beq a b = true then isTrue (Json.eq_of_beq a b h)
  else isFalse (fun he => h (he ▸ Json.beq_refl a))

/-- A document: a parsed JSON object (Python dict). -/
abbrev Doc := List (String × Json)

/-- Python dict lookup (first occurrence; dicts have unique keys). -/
def dictGet (d : List (String × α)) (k : String) : Option α :=
  match d with
  | [] => none
  | (k1, v) :: rest => if k1 = k then some v else dictGet rest k

/-- Python dict assignment `d[k] = v`: overwrite in place if the key is
present, append otherwise. -/
def dictSet (d : List (String × α)) (k : String) (v : α) : List (String × α) :=
  match d with
  | [] => [(k, v)]
  | (k1, v1) :: rest => if k1 = k then (k, v) :: rest else (k1, v1) :: dictSet rest k v

/-- Field lookup inside a JSON value (none on non-objects). -/
def jlookup (j : Json) (k : String) : Option Json :=
  match j with
  | .obj fs => dictGet fs k
  | _ => none

/-- Hex digit? ObjectId accepts both cases. -/
def isHexChar (c : Char) : Bool :=
  ('0' ≤ c && c ≤ '9') || ('a' ≤ c && c ≤ 'f') || ('A' ≤ c && c ≤ 'F')

/-- Value of a hex digit. -/
def hexDigitVal (c : Char) : Nat :=
  if '0' ≤ c && c ≤ '9' then c.toNat - 48
  else if 'a' ≤ c && c ≤ 'f' then c.toNat - 87
  else c.toNat - 55

/-- Lowercase hex digit for `n < 16`. -/
def hexChar (n : Nat) : Char :=
  if n < 10 then Char.ofNat (48 + n) else Char.ofNat (87 + n)

/-- `k` lowercase hex digits of `i`, most significant first. -/
def hexChars : Nat → Nat → List Char
  | 0, _ => []
  | k + 1, i => hexChars k (i / 16) ++ [hexChar (i % 16)]

/-- `str(ObjectId)`: the 24-character lowercase hex rendering. -/
def oidToString (i : Nat) : String := ⟨hexChars 24 i⟩

/-- Decoded value of a hex digit string. -/
def hexValue (l : List Char) : Nat :=
  l.foldl (fun a c => 16 * a + hexDigitVal c) 0

/-- `objectid_validator` from app.py: tries `ObjectId(object_id)` and
returns `None` on failure. A string parses iff it is exactly 24 hex
characters (bson's `InvalidId` is a `ValueError`, so it is caught). -/
def objectid_validator (object_id : String) : Option Json :=
  if object_id.data.length == 24 && object_id.data.all isHexChar then
    some (.oid (hexValue object_id.data))
  else
    none

example : objectid_validator "0123456789abcdef01234567" = some (.oid 0x0123456789abcdef01234567) := by
  decide

example : objectid_validator "xyz" = none := by decide

mutual

/-- Python `str()` of a BSON value (used by the handlers only on the
`_id` of a document: for an ObjectId it is the 24-char hex string). -/
def bsonStr : Json → String
  | .null => "None"
  | .bool true => "True"
  | .bool false => "False"
  | .num n => toString n
  | .str s => s
  | .oid i => oidToString i
  | .arr xs => "[" ++ bsonStrList xs ++ "]"
  | .obj fs => "\x7b" ++ bsonStrFields fs ++ "\x7d"

def bsonStrList : List Json → String
  | [] => ""
  | [x] => bsonStr x
  | x :: y :: xs => bsonStr x ++ ", " ++ bsonStrList (y :: xs)

def bsonStrFields : List (String × Json) → String
  | [] => ""
  | [(k, v)] => k ++ ": " ++ bsonStr v
  | (k, v) :: p :: xs => k ++ ": " ++ bsonStr v ++ ", " ++ bsonStrFields (p :: xs)

end

/-! ## Validator

`validate_json` in app.py delegates to `jsonschema.validate`, an
external library the architecture consumes as a black box
(`validate(document, schema) → valid | invalid(message)`, returning the
first violation only). It is modelled here for the JSON-Schema keyword
subset the repository's schemas exercise: top-level `type`, `required`,
and a `type` constraint per property. Message texts are modelled, not
the library's exact wording. -/

/-- Does a JSON instance match a JSON-Schema `type` name? (`integer`
and `number` coincide here because numbers are modelled as integers.) -/
def typeMatches (v : Json) (t : String) : Bool :=
  match v with
  | .obj _ => t == "object"
  | .arr _ => t == "array"
  | .str _ => t == "string"
  | .num _ => t == "integer" || t == "number"
  | .bool _ => t == "boolean"
  | .null => t == "null"
  | .oid _ => false

/-- The `required` list of a schema (absent or malformed: none). -/
def requiredOf (schema : Json) : List String :=
  match jlookup schema "required" with
  | some (.arr xs) =>
      xs.filterMap (fun j => match j with | .str r => some r | _ => none)
  | _ => []

/-- The `properties` object of a schema (absent or malformed: none). -/
def propertiesOf (schema : Json) : List (String × Json) :=
  match jlookup schema "properties" with
  | some (.obj ps) => ps
  | _ => []

/-- Does a value satisfy the `type` constraint of a property schema? -/
def propTypeOk (v : Json) (propSchema : Json) : Bool :=
  match jlookup propSchema "type" with
  | some (.str t) => typeMatches v t
  | _ => true

/-- Modelled from the spec: the black-box JSON-Schema check behind
`validate_json` — returns `(True, None)` when the document conforms,
else `(False, message)` with the first violation's message. -/
def validate_json (data : Doc) (schema : Json) : Bool × Option String :=
  match jlookup schema "type" with
  | some (.str t) =>
      if typeMatches (.obj data) t then validateKeywords data schema
      else (false, some ("instance is not of type " ++ t))
  | _ => validateKeywords data schema
where
  validateKeywords (data : Doc) (schema : Json) : Bool × Option String :=
    match (requiredOf schema).find? (fun r => (dictGet data r).isNone) with
    | some r => (false, some (r ++ " is a required property"))
    | none =>
        match (propertiesOf schema).find?
            (fun p => match dictGet data p.1 with
              | some v => !propTypeOk v p.2
              | none => false) with
        | some p => (false, some (p.1 ++ " is not of the expected type"))
        | none => (true, none)

/-! ## Storage

The store maps a collection name to its list of documents; each stored
document carries its `_id` field, and MongoDB's unique `_id` index means
at most one document per collection matches a given id. pymongo calls
are pure state transformers here; an injected failure flag in the
request context stands for `errors.PyMongoError` being raised by the
call (the health probe has its own three-valued outcome, since its
handler distinguishes `ServerSelectionTimeoutError` from the rest). -/

/-- Storage state: collection name → stored documents. -/
abbrev Store := List (String × List Doc)

/-- `db[collection]` as a readable value: Mongo collections spring into
being lazily, so an absent collection reads as empty. -/
def getColl (store : Store) (c : String) : List Doc :=
  (dictGet store c).getD []

/-- Write back one collection's documents. -/
def setColl (store : Store) (c : String) (docs : List Doc) : Store :=
  dictSet store c docs

/-- Does this document have the given `_id`? -/
def idMatches (d : Doc) (i : Json) : Bool :=
  decide (dictGet d "_id" = some i)

/-- `collection_db.find_one({"_id": obj_id})`. -/
def find_one (store : Store) (c : String) (i : Json) : Option Doc :=
  (getColl store c).find? (fun d => idMatches d i)

/-- `collection_db.insert_one(data)`: if the document has no `_id`, the
driver assigns the next fresh ObjectId; inserting a duplicate `_id`
raises a duplicate-key error (a `PyMongoError`). Returns
`result.inserted_id` and the new state. -/
def insert_one (store : Store) (c : String) (fresh : Nat) (data : Doc) :
    Except String (Json × Store) :=
  let stored := if (dictGet data "_id").isSome then data else data ++ [("_id", Json.oid fresh)]
  let newId := (dictGet stored "_id").getD Json.null
  match find_one store c newId with
  | some _ => .error "E11000 duplicate key error"
  | none => .ok (newId, setColl store c (getColl store c ++ [stored]))

/-- `$set` merge: each field of `data` overwrites or is added to the
stored document; absent fields are untouched. -/
def mergeSet (d : Doc) (data : Doc) : Doc :=
  data.foldl (fun acc kv => dictSet acc kv.1 kv.2) d

/-- Replace the first document whose `_id` is `i` by its `$set` merge
with `data`; `none` when no document matches. -/
def updateDocs (i : Json) (data : Doc) : List Doc → Option (List Doc)
  | [] => none
  | d :: rest =>
      if idMatches d i then some (mergeSet d data :: rest)
      else (updateDocs i data rest).map (d :: ·)

/-- `collection_db.update_one({"_id": obj_id}, {"$set": data})` — no
upsert: when nothing matches, `matched_count` is 0 and the store is
untouched. A `$set` that would change the matched document's immutable
`_id` raises a write error (a `PyMongoError`). -/
def update_one (store : Store) (c : String) (i : Json) (data : Doc) :
    Except String (Nat × Store) :=
  match updateDocs i data (getColl store c) with
  | none => .ok (0, store)
  | some docs =>
      match dictGet data "_id" with
      | some v =>
          if v = i then .ok (1, setColl store c docs)
          else .error "the immutable field _id was altered"
      | none => .ok (1, setColl store c docs)

/-- Remove the first document whose `_id` is `i`; `none` when no
document matches. -/
def removeDoc (i : Json) : List Doc → Option (List Doc)
  | [] => none
  | d :: rest =>
      if idMatches d i then some rest
      else (removeDoc i rest).map (d :: ·)

/-- `collection_db.delete_one({"_id": obj_id})`: returns
`deleted_count` and the new state; nothing matching means count 0 and
an untouched store. -/
def delete_one (store : Store) (c : String) (i : Json) : Nat × Store :=
  match removeDoc i (getColl store c) with
  | none => (0, store)
  | some docs => (1, setColl store c docs)

/-! ## Request context, responses and handlers

Each handler from app.py is translated gate by gate. The context packs
what a handler reads: the startup-loaded schema registry (`schemas`),
the storage state, an optional backend failure (when set, any storage
call raises `PyMongoError` with that text — the `except` branches), the
next ObjectId the driver would assign, and the outcome the liveness
probe would produce for the health endpoint. -/

/-- What `client.server_info()` does when the health endpoint probes
the store: succeed, raise `ServerSelectionTimeoutError`, or raise some
other `PyMongoError` (e.g. `OperationFailure` on bad credentials,
`AutoReconnect` on a dropped connection) carrying its text. -/
inductive PingOutcome where
  | ok : PingOutcome
  | timeout : PingOutcome
  | otherError (e : String) : PingOutcome
deriving DecidableEq

/-- Per-request environment of the Flask app. -/
structure Ctx where
  schemas : List (String × Json)
  store : Store
  dbFail : Option String
  fresh : Nat
  ping : PingOutcome

/-- An HTTP response: status code and JSON body. -/
structure Response where
  status : Nat
  body : Json
deriving DecidableEq

/-- `jsonify({"error": msg})`. -/
def jerr (msg : String) : Json := Json.obj [("error", Json.str msg)]

/-- `jsonify({"error": error_message})` where the message may be None. -/
def jerrOpt (msg : Option String) : Json :=
  Json.obj [("error", match msg with | some s => Json.str s | none => Json.null)]

/-- A storage call attempted by a handler (the observable trace). -/
inductive StorageOp where
  | insertOne (c : String) (data : Doc) : StorageOp
  | findOne (c : String) (i : Json) : StorageOp
  | updateOne (c : String) (i : Json) (data : Doc) : StorageOp
  | deleteOne (c : String) (i : Json) : StorageOp
deriving DecidableEq

/-- What a handler produces: the response, the storage state afterwards,
and the storage calls it attempted. -/
structure HResult where
  resp : Response
  store : Store
  ops : List StorageOp
deriving DecidableEq

/-- `POST /<collection>` — `create_object` from app.py. -/
def create_object (ctx : Ctx) (collection : String) (data : Doc) : HResult :=
  match dictGet ctx.schemas collection with
  | none => ⟨⟨404, jerr "Collection not found"⟩, ctx.store, []⟩
  | some schema =>
    match validate_json data schema with
    | (false, error_message) => ⟨⟨400, jerrOpt error_message⟩, ctx.store, []⟩
    | (true, _) =>
      match ctx.dbFail with
      | some e =>
          ⟨⟨500, jerr ("Database error: " ++ e)⟩, ctx.store, [.insertOne collection data]⟩
      | none =>
        match insert_one ctx.store collection ctx.fresh data with
        | .error e =>
            ⟨⟨500, jerr ("Database error: " ++ e)⟩, ctx.store, [.insertOne collection data]⟩
        | .ok (newId, store') =>
            ⟨⟨201, Json.obj [("message", Json.str "Object created"),
                             ("id", Json.str (bsonStr newId))]⟩,
             store', [.insertOne collection data]⟩

/-- `GET /<collection>/<object_id>` — `get_object` from app.py. The
success body is the stored document with its `_id` replaced by its
string rendering (`obj['_id'] = str(obj['_id'])`; the match guarantees
`_id` is present, so the `getD` default is unreachable). -/
def get_object (ctx : Ctx) (collection object_id : String) : HResult :=
  match dictGet ctx.schemas collection with
  | none => ⟨⟨404, jerr "Collection not found"⟩, ctx.store, []⟩
  | some _ =>
    match objectid_validator object_id with
    | none => ⟨⟨400, jerr "Invalid object ID"⟩, ctx.store, []⟩
    | some obj_id =>
      match ctx.dbFail with
      | some e =>
          ⟨⟨500, jerr ("Database error: " ++ e)⟩, ctx.store, [.findOne collection obj_id]⟩
      | none =>
        match find_one ctx.store collection obj_id with
        | none => ⟨⟨404, jerr "Object not found"⟩, ctx.store, [.findOne collection obj_id]⟩
        | some obj =>
            ⟨⟨200, Json.obj (dictSet obj "_id"
                (Json.str (bsonStr ((dictGet obj "_id").getD Json.null))))⟩,
             ctx.store, [.findOne collection obj_id]⟩

/-- `PUT /<collection>/<object_id>` — `update_object` from app.py. -/
def update_object (ctx : Ctx) (collection object_id : String) (data : Doc) : HResult :=
  match dictGet ctx.schemas collection with
  | none => ⟨⟨404, jerr "Collection not found"⟩, ctx.store, []⟩
  | some schema =>
    match validate_json data schema with
    | (false, error_message) => ⟨⟨400, jerrOpt error_message⟩, ctx.store, []⟩
    | (true, _) =>
      match objectid_validator object_id with
      | none => ⟨⟨400, jerr "Invalid object ID"⟩, ctx.store, []⟩
      | some obj_id =>
        match ctx.dbFail with
        | some e =>
            ⟨⟨500, jerr ("Database error: " ++ e)⟩, ctx.store,
             [.updateOne collection obj_id data]⟩
        | none =>
          match update_one ctx.store collection obj_id data with
          | .error e =>
              ⟨⟨500, jerr ("Database error: " ++ e)⟩, ctx.store,
               [.updateOne collection obj_id data]⟩
          | .ok (matched, store') =>
              if matched == 0 then
                ⟨⟨404, jerr "Object not found"⟩, store', [.updateOne collection obj_id data]⟩
              else
                ⟨⟨200, Json.obj [("message", Json.str "Object updated")]⟩, store',
                 [.updateOne collection obj_id data]⟩

/-- `DELETE /<collection>/<object_id>` — `delete_object` from app.py. -/
def delete_object (ctx : Ctx) (collection object_id : String) : HResult :=
  match dictGet ctx.schemas collection with
  | none => ⟨⟨404, jerr "Collection not found"⟩, ctx.store, []⟩
  | some _ =>
    match objectid_validator object_id with
    | none => ⟨⟨400, jerr "Invalid object ID"⟩, ctx.store, []⟩
    | some obj_id =>
      match ctx.dbFail with
      | some e =>
          ⟨⟨500, jerr ("Database error: " ++ e)⟩, ctx.store, [.deleteOne collection obj_id]⟩
      | none =>
        let (deleted, store') := delete_one ctx.store collection obj_id
        if deleted == 0 then
          ⟨⟨404, jerr "Object not found"⟩, store', [.deleteOne collection obj_id]⟩
        else
          ⟨⟨200, Json.obj [("message", Json.str "Object deleted")]⟩, store',
           [.deleteOne collection obj_id]⟩

/-- What a Flask view invocation produces: a response the handler
itself built, or an exception that escaped the handler — Flask's
framework then renders its generic error page, not a handler-boundary
JSON response. -/
inductive HandlerOutcome where
  | response (r : Response) : HandlerOutcome
  | uncaught (e : String) : HandlerOutcome
deriving DecidableEq

/-- `GET /healthcheck` — `healthcheck` from app.py: probe the store
with `client.server_info()`. The `except` clause names only
`errors.ServerSelectionTimeoutError`, so a probe succeeding gives 200
"healthy", a server-selection timeout gives 503 "unhealthy", and any
other `PyMongoError` raised by the probe escapes the handler
uncaught. -/
def healthcheck (ctx : Ctx) : HandlerOutcome :=
  match ctx.ping with
  | .ok => .response ⟨200, Json.obj [("status", Json.str "healthy")]⟩
  | .timeout => .response ⟨503, Json.obj [("status", Json.str "unhealthy"),
      ("error", Json.str "Cannot connect to MongoDB")]⟩
  | .otherError e => .uncaught e

/-! ## Schema registry loader

The startup loop over `schemas/`: each `.json` file is decoded
(`none` content models a decoding/IO failure) and must provide the
`collection_name` and `schema` keys; any failure aborts startup
(`exit(1)`, modelled as `Except.error`). A `collection_name` that is
not a string becomes a dict key no URL path segment can equal, so it
registers nothing observable. -/

/-- `filename.endswith('.json')`, on the decoded characters. -/
def endsWithStr (s suffix : String) : Bool :=
  suffix.data.isSuffixOf s.data

/-- The schema-loading loop from app.py over (filename, decoded
content) pairs. -/
def load_schemas (files : List (String × Option Json)) :
    Except String (List (String × Json)) :=
  files.foldlM (fun acc file =>
    if endsWithStr file.1 ".json" then
      match file.2 with
      | none => .error ("Erro ao carregar o arquivo json " ++ file.1)
      | some definition =>
        match jlookup definition "collection_name", jlookup definition "schema" with
        | some (.str c), some s => .ok (dictSet acc c s)
        | some _, some _ => .ok acc
        | _, _ => .error ("Erro ao carregar o esquema " ++ file.1)
    else .ok acc) []

/-! ## Basic lemmas about the dictionary operations -/

theorem dictGet_dictSet_self (d : List (String × α)) (k : String) (v : α) :
    dictGet (dictSet d k v) k = some v := by
  induction d with
  | nil => simp [dictGet, dictSet]
  | cons p rest ih =>
      by_cases h : p.1 = k
      · simp [dictGet, dictSet, h]
      · simp [dictGet, dictSet, h, ih]

theorem dictGet_dictSet_ne (d : List (String × α)) {k1 k2 : String} (v : α)
    (h : k1 ≠ k2) : dictGet (dictSet d k1 v) k2 = dictGet d k2 := by
  induction d with
  | nil => simp [dictGet, dictSet, h]
  | cons p rest ih =>
      obtain ⟨pk, pv⟩ := p
      by_cases hp : pk = k1
      · subst hp
        simp [dictGet, dictSet, h]
      · by_cases hq : pk = k2
        · subst hq
          simp [dictGet, dictSet, hp, Ne.symm h]
        · simp [dictGet, dictSet, hp, hq, ih]

theorem dictSet_dictSet_self (d : List (String × α)) (k : String) (v w : α) :
    dictSet (dictSet d k v) k w = dictSet d k w := by
  induction d with
  | nil => simp [dictSet]
  | cons p rest ih =>
      by_cases h : p.1 = k
      · simp [dictSet, h]
      · simp [dictSet, h, ih]

theorem dictSet_eq_of_dictGet (d : List (String × α)) (k : String) (v : α)
    (h : dictGet d k = some v) : dictSet d k v = d := by
  induction d with
  | nil => simp [dictGet] at h
  | cons p rest ih =>
      by_cases hp : p.1 = k
      · simp [dictGet, hp] at h
        cases p
        simp_all [dictSet]
      · simp [dictGet, hp] at h
        simp [dictSet, hp, ih h]

theorem dictGet_eq_none_iff (d : List (String × α)) (k : String) :
    dictGet d k = none ↔ k ∉ d.map Prod.fst := by
  induction d with
  | nil => simp [dictGet]
  | cons p rest ih =>
      by_cases hp : p.1 = k
      · simp [dictGet, hp]
      · simp [dictGet, hp, ih, Ne.symm hp]

theorem mem_of_dictGet_eq_some {d : List (String × α)} {k : String} {v : α}
    (h : dictGet d k = some v) : (k, v) ∈ d := by
  induction d with
  | nil => simp [dictGet] at h
  | cons p rest ih =>
      obtain ⟨pk, pv⟩ := p
      by_cases hp : pk = k
      · subst hp
        simp [dictGet] at h
        subst h
        exact List.mem_cons_self _ _
      · simp [dictGet, hp] at h
        exact List.mem_cons_of_mem _ (ih h)

theorem dictGet_append_of_none (d l : List (String × α)) (k : String)
    (h : dictGet d k = none) : dictGet (d ++ l) k = dictGet l k := by
  induction d with
  | nil => simp
  | cons p rest ih =>
      by_cases hp : p.1 = k
      · simp [dictGet, hp] at h
      · simp [dictGet, hp] at h ⊢
        exact ih h

theorem dictSet_append_of_none (d l : List (String × α)) (k : String) (v : α)
    (h : dictGet d k = none) : dictSet (d ++ l) k v = d ++ dictSet l k v := by
  induction d with
  | nil => simp
  | cons p rest ih =>
      by_cases hp : p.1 = k
      · simp [dictGet, hp] at h
      · simp [dictGet, hp] at h
        simp [dictSet, hp, ih h]

theorem dictGet_append_self (d l : List (String × α)) (k : String) (v : α)
    (h : dictGet d k = none) : dictGet (d ++ (k, v) :: l) k = some v := by
  rw [dictGet_append_of_none _ _ _ h]
  simp [dictGet]

/-! ## Lemmas about the `$set` merge -/

theorem mergeSet_nil (d : Doc) : mergeSet d [] = d := rfl

theorem mergeSet_cons (d : Doc) (p : String × Json) (t : Doc) :
    mergeSet d (p :: t) = mergeSet (dictSet d p.1 p.2) t := rfl

theorem dictGet_mergeSet_of_not_mem (d n : Doc) (k : String)
    (h : k ∉ n.map Prod.fst) : dictGet (mergeSet d n) k = dictGet d k := by
  induction n generalizing d with
  | nil => rfl
  | cons p t ih =>
      simp only [List.map_cons, List.mem_cons] at h
      push_neg at h
      rw [mergeSet_cons, ih (dictSet d p.1 p.2) h.2, dictGet_dictSet_ne d p.2 (Ne.symm h.1)]

theorem dictGet_mergeSet_of_mem (d n : Doc) (k : String) (v : Json)
    (hnd : (n.map Prod.fst).Nodup) (h : (k, v) ∈ n) :
    dictGet (mergeSet d n) k = some v := by
  induction n generalizing d with
  | nil => simp at h
  | cons p t ih =>
      obtain ⟨pk, pv⟩ := p
      simp only [List.map_cons, List.nodup_cons] at hnd
      rw [mergeSet_cons]
      rcases List.mem_cons.mp h with h1 | h1
      · rw [Prod.mk.injEq] at h1
        obtain ⟨h1a, h1b⟩ := h1
        subst h1a
        subst h1b
        rw [dictGet_mergeSet_of_not_mem _ _ _ hnd.1]
        exact dictGet_dictSet_self d k v
      · exact ih (dictSet d pk pv) hnd.2 h1

theorem mergeSet_fix (e : Doc) (n : Doc)
    (he : ∀ p ∈ n, dictGet e p.1 = some p.2) : mergeSet e n = e := by
  induction n with
  | nil => rfl
  | cons p t ih =>
      rw [mergeSet_cons, dictSet_eq_of_dictGet e p.1 p.2 (he p (List.mem_cons_self p t))]
      exact ih (fun q hq => he q (List.mem_cons_of_mem p hq))

theorem mergeSet_idem (d n : Doc) (hnd : (n.map Prod.fst).Nodup) :
    mergeSet (mergeSet d n) n = mergeSet d n :=
  mergeSet_fix _ n (fun p hp => dictGet_mergeSet_of_mem d n p.1 p.2 hnd hp)

/-! ## Lemmas about the collection scan helpers -/

theorem find?_append_of_none {α : Type} (l l2 : List α) (p : α → Bool)
    (h : l.find? p = none) : (l ++ l2).find? p = l2.find? p := by
  induction l with
  | nil => simp
  | cons x t ih =>
      rcases hx : p x with hf | ht
      · rw [List.find?_cons_of_neg _ (by simp [hx])] at h
        simp only [List.cons_append]
        rw [List.find?_cons_of_neg _ (by simp [hx])]
        exact ih h
      · rw [List.find?_cons_of_pos _ hx] at h
        exact absurd h (by simp)

theorem updateDocs_eq_none_iff (i : Json) (data : Doc) (l : List Doc) :
    updateDocs i data l = none ↔ ∀ d ∈ l, idMatches d i = false := by
  induction l with
  | nil => simp [updateDocs]
  | cons d t ih =>
      rcases hd : idMatches d i with hf | ht
      · simp [updateDocs, hd, ih]
      · simp [updateDocs, hd]

theorem removeDoc_eq_none_iff (i : Json) (l : List Doc) :
    removeDoc i l = none ↔ ∀ d ∈ l, idMatches d i = false := by
  induction l with
  | nil => simp [removeDoc]
  | cons d t ih =>
      rcases hd : idMatches d i with hf | ht
      · simp [removeDoc, hd, ih]
      · simp [removeDoc, hd]

theorem getColl_setColl (s : Store) (c : String) (l : List Doc) :
    getColl (setColl s c l) c = l := by
  simp [getColl, setColl, dictGet_dictSet_self]

theorem setColl_setColl (s : Store) (c : String) (l1 l2 : List Doc) :
    setColl (setColl s c l1) c l2 = setColl s c l2 :=
  dictSet_dictSet_self s c l1 l2

/-! ## The ObjectId codec round-trip -/

theorem hexChars_length (k i : Nat) : (hexChars k i).length = k := by
  induction k generalizing i with
  | zero => rfl
  | succ k ih => simp [hexChars, ih]

theorem hexChar_isHexChar (n : Nat) (h : n < 16) : isHexChar (hexChar n) = true := by
  interval_cases n <;> decide

theorem hexChars_all_hex (k i : Nat) : (hexChars k i).all isHexChar = true := by
  induction k generalizing i with
  | zero => rfl
  | succ k ih =>
      simp only [hexChars, List.all_append, Bool.and_eq_true, List.all_cons, List.all_nil]
      exact ⟨ih (i / 16), by simp [hexChar_isHexChar (i % 16) (Nat.mod_lt _ (by norm_num))]⟩

theorem hexDigitVal_hexChar (n : Nat) (h : n < 16) : hexDigitVal (hexChar n) = n := by
  interval_cases n <;> decide

theorem hexValue_hexChars (k i : Nat) (h : i < 16 ^ k) :
    hexValue (hexChars k i) = i := by
  induction k generalizing i with
  | zero =>
      simp [pow_zero, Nat.lt_one_iff] at h
      simp [hexChars, hexValue, h]
  | succ k ih =>
      have hdiv : i / 16 < 16 ^ k := by
        rw [Nat.div_lt_iff_lt_mul (by norm_num)]
        calc i < 16 ^ (k + 1) := h
        _ = 16 ^ k * 16 := by ring
      simp only [hexChars, hexValue, List.foldl_append, List.foldl_cons, List.foldl_nil]
      have hv : (hexChars k (i / 16)).foldl (fun a c => 16 * a + hexDigitVal c) 0 = i / 16 :=
        ih (i / 16) hdiv
      rw [hv, hexDigitVal_hexChar (i % 16) (Nat.mod_lt _ (by norm_num))]
      omega

theorem objectid_validator_oidToString (i : Nat) (h : i < 16 ^ 24) :
    objectid_validator (oidToString i) = some (.oid i) := by
  have hdata : (oidToString i).data = hexChars 24 i := rfl
  simp only [objectid_validator, hdata]
  rw [if_pos]
  · rw [show hexValue (hexChars 24 i) = i from hexValue_hexChars 24 i h]
  · rw [hexChars_length, hexChars_all_hex]
    rfl

/-! ## Handler characterizations, one per gate outcome -/

theorem create_object_unknown (ctx : Ctx) (c : String) (data : Doc)
    (h : dictGet ctx.schemas c = none) :
    create_object ctx c data = ⟨⟨404, jerr "Collection not found"⟩, ctx.store, []⟩ := by
  simp [create_object, h]

theorem get_object_unknown (ctx : Ctx) (c oid : String)
    (h : dictGet ctx.schemas c = none) :
    get_object ctx c oid = ⟨⟨404, jerr "Collection not found"⟩, ctx.store, []⟩ := by
  simp [get_object, h]

theorem update_object_unknown (ctx : Ctx) (c oid : String) (data : Doc)
    (h : dictGet ctx.schemas c = none) :
    update_object ctx c oid data = ⟨⟨404, jerr "Collection not found"⟩, ctx.store, []⟩ := by
  simp [update_object, h]

theorem delete_object_unknown (ctx : Ctx) (c oid : String)
    (h : dictGet ctx.schemas c = none) :
    delete_object ctx c oid = ⟨⟨404, jerr "Collection not found"⟩, ctx.store, []⟩ := by
  simp [delete_object, h]

theorem create_object_invalid (ctx : Ctx) (c : String) (data : Doc) (schema : Json)
    (em : Option String) (hc : dictGet ctx.schemas c = some schema)
    (hv : validate_json data schema = (false, em)) :
    create_object ctx c data = ⟨⟨400, jerrOpt em⟩, ctx.store, []⟩ := by
  simp [create_object, hc, hv]

theorem update_object_invalid (ctx : Ctx) (c oid : String) (data : Doc) (schema : Json)
    (em : Option String) (hc : dictGet ctx.schemas c = some schema)
    (hv : validate_json data schema = (false, em)) :
    update_object ctx c oid data = ⟨⟨400, jerrOpt em⟩, ctx.store, []⟩ := by
  simp [update_object, hc, hv]

theorem get_object_badid (ctx : Ctx) (c oid : String) (schema : Json)
    (hc : dictGet ctx.schemas c = some schema)
    (hid : objectid_validator oid = none) :
    get_object ctx c oid = ⟨⟨400, jerr "Invalid object ID"⟩, ctx.store, []⟩ := by
  simp [get_object, hc, hid]

theorem update_object_badid (ctx : Ctx) (c oid : String) (data : Doc) (schema : Json)
    (em : Option String) (hc : dictGet ctx.schemas c = some schema)
    (hv : validate_json data schema = (true, em))
    (hid : objectid_validator oid = none) :
    update_object ctx c oid data = ⟨⟨400, jerr "Invalid object ID"⟩, ctx.store, []⟩ := by
  simp [update_object, hc, hv, hid]

theorem delete_object_badid (ctx : Ctx) (c oid : String) (schema : Json)
    (hc : dictGet ctx.schemas c = some schema)
    (hid : objectid_validator oid = none) :
    delete_object ctx c oid = ⟨⟨400, jerr "Invalid object ID"⟩, ctx.store, []⟩ := by
  simp [delete_object, hc, hid]

theorem create_object_dbfail (ctx : Ctx) (c : String) (data : Doc) (schema : Json)
    (em : Option String) (e : String) (hc : dictGet ctx.schemas c = some schema)
    (hv : validate_json data schema = (true, em)) (hdb : ctx.dbFail = some e) :
    create_object ctx c data =
      ⟨⟨500, jerr ("Database error: " ++ e)⟩, ctx.store, [.insertOne c data]⟩ := by
  simp [create_object, hc, hv, hdb]

theorem get_object_dbfail (ctx : Ctx) (c oid : String) (i : Json) (schema : Json)
    (e : String) (hc : dictGet ctx.schemas c = some schema)
    (hid : objectid_validator oid = some i) (hdb : ctx.dbFail = some e) :
    get_object ctx c oid =
      ⟨⟨500, jerr ("Database error: " ++ e)⟩, ctx.store, [.findOne c i]⟩ := by
  simp [get_object, hc, hid, hdb]

theorem update_object_dbfail (ctx : Ctx) (c oid : String) (data : Doc) (i : Json)
    (schema : Json) (em : Option String) (e : String)
    (hc : dictGet ctx.schemas c = some schema)
    (hv : validate_json data schema = (true, em))
    (hid : objectid_validator oid = some i) (hdb : ctx.dbFail = some e) :
    update_object ctx c oid data =
      ⟨⟨500, jerr ("Database error: " ++ e)⟩, ctx.store, [.updateOne c i data]⟩ := by
  simp [update_object, hc, hv, hid, hdb]

theorem delete_object_dbfail (ctx : Ctx) (c oid : String) (i : Json) (schema : Json)
    (e : String) (hc : dictGet ctx.schemas c = some schema)
    (hid : objectid_validator oid = some i) (hdb : ctx.dbFail = some e) :
    delete_object ctx c oid =
      ⟨⟨500, jerr ("Database error: " ++ e)⟩, ctx.store, [.deleteOne c i]⟩ := by
  simp [delete_object, hc, hid, hdb]

theorem create_object_inserted (ctx : Ctx) (c : String) (data : Doc) (schema : Json)
    (em : Option String) (newId : Json) (store' : Store)
    (hc : dictGet ctx.schemas c = some schema)
    (hv : validate_json data schema = (true, em)) (hdb : ctx.dbFail = none)
    (hins : insert_one ctx.store c ctx.fresh data = .ok (newId, store')) :
    create_object ctx c data =
      ⟨⟨201, Json.obj [("message", Json.str "Object created"),
                       ("id", Json.str (bsonStr newId))]⟩, store', [.insertOne c data]⟩ := by
  simp [create_object, hc, hv, hdb, hins]

theorem get_object_found (ctx : Ctx) (c oid : String) (i : Json) (schema : Json)
    (obj : Doc) (hc : dictGet ctx.schemas c = some schema)
    (hid : objectid_validator oid = some i) (hdb : ctx.dbFail = none)
    (hf : find_one ctx.store c i = some obj) :
    get_object ctx c oid =
      ⟨⟨200, Json.obj (dictSet obj "_id"
          (Json.str (bsonStr ((dictGet obj "_id").getD Json.null))))⟩,
       ctx.store, [.findOne c i]⟩ := by
  simp [get_object, hc, hid, hdb, hf]

theorem get_object_notfound (ctx : Ctx) (c oid : String) (i : Json) (schema : Json)
    (hc : dictGet ctx.schemas c = some schema)
    (hid : objectid_validator oid = some i) (hdb : ctx.dbFail = none)
    (hf : find_one ctx.store c i = none) :
    get_object ctx c oid = ⟨⟨404, jerr "Object not found"⟩, ctx.store, [.findOne c i]⟩ := by
  simp [get_object, hc, hid, hdb, hf]

theorem update_object_matched (ctx : Ctx) (c oid : String) (data : Doc) (i : Json)
    (schema : Json) (em : Option String) (store' : Store)
    (hc : dictGet ctx.schemas c = some schema)
    (hv : validate_json data schema = (true, em))
    (hid : objectid_validator oid = some i) (hdb : ctx.dbFail = none)
    (hup : update_one ctx.store c i data = .ok (1, store')) :
    update_object ctx c oid data =
      ⟨⟨200, Json.obj [("message", Json.str "Object updated")]⟩, store',
       [.updateOne c i data]⟩ := by
  simp [update_object, hc, hv, hid, hdb, hup]

theorem update_object_nomatch (ctx : Ctx) (c oid : String) (data : Doc) (i : Json)
    (schema : Json) (em : Option String) (store' : Store)
    (hc : dictGet ctx.schemas c = some schema)
    (hv : validate_json data schema = (true, em))
    (hid : objectid_validator oid = some i) (hdb : ctx.dbFail = none)
    (hup : update_one ctx.store c i data = .ok (0, store')) :
    update_object ctx c oid data =
      ⟨⟨404, jerr "Object not found"⟩, store', [.updateOne c i data]⟩ := by
  simp [update_object, hc, hv, hid, hdb, hup]

theorem delete_object_deleted (ctx : Ctx) (c oid : String) (i : Json) (schema : Json)
    (store' : Store) (hc : dictGet ctx.schemas c = some schema)
    (hid : objectid_validator oid = some i) (hdb : ctx.dbFail = none)
    (hdel : delete_one ctx.store c i = (1, store')) :
    delete_object ctx c oid =
      ⟨⟨200, Json.obj [("message", Json.str "Object deleted")]⟩, store',
       [.deleteOne c i]⟩ := by
  simp [delete_object, hc, hid, hdb, hdel]

theorem delete_object_nomatch (ctx : Ctx) (c oid : String) (i : Json) (schema : Json)
    (store' : Store) (hc : dictGet ctx.schemas c = some schema)
    (hid : objectid_validator oid = some i) (hdb : ctx.dbFail = none)
    (hdel : delete_one ctx.store c i = (0, store')) :
    delete_object ctx c oid =
      ⟨⟨404, jerr "Object not found"⟩, store', [.deleteOne c i]⟩ := by
  simp [delete_object, hc, hid, hdb, hdel]

theorem update_one_nomatch (store : Store) (c : String) (i : Json) (data : Doc)
    (h : updateDocs i data (getColl store c) = none) :
    update_one store c i data = .ok (0, store) := by
  simp [update_one, h]

theorem update_one_match (store : Store) (c : String) (i : Json) (data : Doc)
    (docs : List Doc) (h : updateDocs i data (getColl store c) = some docs)
    (hid : dictGet data "_id" = none ∨ dictGet data "_id" = some i) :
    update_one store c i data = .ok (1, setColl store c docs) := by
  rcases hid with hid | hid <;> simp [update_one, h, hid]

theorem delete_one_nomatch (store : Store) (c : String) (i : Json)
    (h : removeDoc i (getColl store c) = none) :
    delete_one store c i = (0, store) := by
  simp [delete_one, h]

theorem delete_one_match (store : Store) (c : String) (i : Json) (docs : List Doc)
    (h : removeDoc i (getColl store c) = some docs) :
    delete_one store c i = (1, setColl store c docs) := by
  simp [delete_one, h]

theorem create_object_inserr (ctx : Ctx) (c : String) (data : Doc) (schema : Json)
    (em : Option String) (e : String) (hc : dictGet ctx.schemas c = some schema)
    (hv : validate_json data schema = (true, em)) (hdb : ctx.dbFail = none)
    (hins : insert_one ctx.store c ctx.fresh data = .error e) :
    create_object ctx c data =
      ⟨⟨500, jerr ("Database error: " ++ e)⟩, ctx.store, [.insertOne c data]⟩ := by
  simp [create_object, hc, hv, hdb, hins]

theorem update_object_uperr (ctx : Ctx) (c oid : String) (data : Doc) (i : Json)
    (schema : Json) (em : Option String) (e : String)
    (hc : dictGet ctx.schemas c = some schema)
    (hv : validate_json data schema = (true, em))
    (hid : objectid_validator oid = some i) (hdb : ctx.dbFail = none)
    (hup : update_one ctx.store c i data = .error e) :
    update_object ctx c oid data =
      ⟨⟨500, jerr ("Database error: " ++ e)⟩, ctx.store, [.updateOne c i data]⟩ := by
  simp [update_object, hc, hv, hid, hdb, hup]

theorem create_object_ops (ctx : Ctx) (c : String) (data : Doc) (schema : Json)
    (em : Option String) (hc : dictGet ctx.schemas c = some schema)
    (hv : validate_json data schema = (true, em)) :
    (create_object ctx c data).ops = [.insertOne c data] := by
  simp only [create_object, hc, hv]
  cases ctx.dbFail with
  | some e => rfl
  | none =>
      cases insert_one ctx.store c ctx.fresh data with
      | error e => rfl
      | ok p =>
          obtain ⟨newId, store'⟩ := p
          rfl

theorem get_object_ops (ctx : Ctx) (c oid : String) (i : Json) (schema : Json)
    (hc : dictGet ctx.schemas c = some schema)
    (hid : objectid_validator oid = some i) :
    (get_object ctx c oid).ops = [.findOne c i] := by
  simp only [get_object, hc, hid]
  cases ctx.dbFail with
  | some e => rfl
  | none =>
      cases find_one ctx.store c i with
      | none => rfl
      | some obj => rfl

theorem update_object_ops (ctx : Ctx) (c oid : String) (data : Doc) (i : Json)
    (schema : Json) (em : Option String) (hc : dictGet ctx.schemas c = some schema)
    (hv : validate_json data schema = (true, em))
    (hid : objectid_validator oid = some i) :
    (update_object ctx c oid data).ops = [.updateOne c i data] := by
  simp only [update_object, hc, hv, hid]
  cases ctx.dbFail with
  | some e => rfl
  | none =>
      cases update_one ctx.store c i data with
      | error e => rfl
      | ok p =>
          obtain ⟨matched, store'⟩ := p
          by_cases hm : (matched == 0) = true
          · simp [hm]
          · simp [hm]

theorem delete_object_ops (ctx : Ctx) (c oid : String) (i : Json) (schema : Json)
    (hc : dictGet ctx.schemas c = some schema)
    (hid : objectid_validator oid = some i) :
    (delete_object ctx c oid).ops = [.deleteOne c i] := by
  simp only [delete_object, hc, hid]
  cases ctx.dbFail with
  | some e => rfl
  | none =>
      rcases hdl : delete_one ctx.store c i with ⟨deleted, store'⟩
      by_cases hm : (deleted == 0) = true
      · simp [hdl, hm]
      · simp [hdl, hm]

/-! ## Demo values (the spec's `users` scenario), used by the witnesses -/

/-- The scenario schema: an object requiring `name: string`,
`age: integer`. -/
def usersSchema : Json :=
  Json.obj [("type", Json.str "object"),
            ("required", Json.arr [Json.str "name", Json.str "age"]),
            ("properties",
              Json.obj [("name", Json.obj [("type", Json.str "string")]),
                        ("age", Json.obj [("type", Json.str "integer")])])]

/-- `{"name": "Ana", "age": 30}`. -/
def anaDoc : Doc := [("name", Json.str "Ana"), ("age", Json.num 30)]

/-- A context with one known collection `users`, an empty store, a
healthy backend and next ObjectId 7. -/
def demoCtx : Ctx :=
  { schemas := [("users", usersSchema)], store := [], dbFail := none,
    fresh := 7, ping := .ok }

/-- Ana as stored, carrying ObjectId 5. -/
def anaStored : Doc := anaDoc ++ [("_id", Json.oid 5)]

/-- A context whose `users` collection already holds `anaStored`. -/
def demoCtx2 : Ctx :=
  { schemas := [("users", usersSchema)], store := [("users", [anaStored])],
    dbFail := none, fresh := 7, ping := .ok }

/-! ## Claims -/

/-- **C1**: every CRUD request is decided by the first failing gate, in
the fixed order: an unknown collection yields 404 "Collection not
found" before anything else; for POST and PUT, a body invalid against
the collection's schema yields 400 with the validator's message before
the identifier is parsed; a malformed identifier yields 400 "Invalid
object ID" before any storage call (the trace stays empty); only when
every gate passes is the storage operation attempted. -/
theorem C1_gate_order (ctx : Ctx) (c object_id : String) (data : Doc) :
    (dictGet ctx.schemas c = none →
      create_object ctx c data = ⟨⟨404, jerr "Collection not found"⟩, ctx.store, []⟩ ∧
      get_object ctx c object_id = ⟨⟨404, jerr "Collection not found"⟩, ctx.store, []⟩ ∧
      update_object ctx c object_id data =
        ⟨⟨404, jerr "Collection not found"⟩, ctx.store, []⟩ ∧
      delete_object ctx c object_id = ⟨⟨404, jerr "Collection not found"⟩, ctx.store, []⟩) ∧
    (∀ schema em, dictGet ctx.schemas c = some schema →
      validate_json data schema = (false, em) →
      create_object ctx c data = ⟨⟨400, jerrOpt em⟩, ctx.store, []⟩ ∧
      update_object ctx c object_id data = ⟨⟨400, jerrOpt em⟩, ctx.store, []⟩) ∧
    (∀ schema em, dictGet ctx.schemas c = some schema →
      objectid_validator object_id = none →
      get_object ctx c object_id = ⟨⟨400, jerr "Invalid object ID"⟩, ctx.store, []⟩ ∧
      (validate_json data schema = (true, em) →
        update_object ctx c object_id data =
          ⟨⟨400, jerr "Invalid object ID"⟩, ctx.store, []⟩) ∧
      delete_object ctx c object_id = ⟨⟨400, jerr "Invalid object ID"⟩, ctx.store, []⟩) ∧
    (∀ schema em i, dictGet ctx.schemas c = some schema →
      validate_json data schema = (true, em) →
      objectid_validator object_id = some i →
      (create_object ctx c data).ops = [.insertOne c data] ∧
      (get_object ctx c object_id).ops = [.findOne c i] ∧
      (update_object ctx c object_id data).ops = [.updateOne c i data] ∧
      (delete_object ctx c object_id).ops = [.deleteOne c i]) := by
  refine ⟨fun h => ⟨create_object_unknown _ _ _ h, get_object_unknown _ _ _ h,
      update_object_unknown _ _ _ _ h, delete_object_unknown _ _ _ h⟩,
    fun schema em hc hv => ⟨create_object_invalid _ _ _ _ _ hc hv,
      update_object_invalid _ _ _ _ _ _ hc hv⟩,
    fun schema em hc hid => ⟨get_object_badid _ _ _ _ hc hid,
      fun hv => update_object_badid _ _ _ _ _ _ hc hv hid,
      delete_object_badid _ _ _ _ hc hid⟩,
    fun schema em i hc hv hid => ⟨create_object_ops _ _ _ _ _ hc hv,
      get_object_ops _ _ _ _ _ hc hid,
      update_object_ops _ _ _ _ _ _ _ hc hv hid,
      delete_object_ops _ _ _ _ _ hc hid⟩⟩

/-- Witness for C1 at concrete inputs: an unknown collection 404s, an
invalid body 400s with the validator's message even though the id is
also malformed, a malformed id 400s, and a fully-gated POST attempts
its insert. -/
theorem C1_gate_order_witness :
    create_object demoCtx "pets" anaDoc = ⟨⟨404, jerr "Collection not found"⟩, [], []⟩ ∧
    update_object demoCtx "users" "not-a-hex-id" [("name", Json.str "Ana")] =
      ⟨⟨400, jerrOpt (some "age is a required property")⟩, [], []⟩ ∧
    delete_object demoCtx "users" "not-a-hex-id" =
      ⟨⟨400, jerr "Invalid object ID"⟩, [], []⟩ ∧
    (create_object demoCtx "users" anaDoc).ops = [.insertOne "users" anaDoc] := by
  refine ⟨?_, ?_, ?_, ?_⟩
  · exact ((C1_gate_order demoCtx "pets" "x" anaDoc).1 (by decide)).1
  · exact ((C1_gate_order demoCtx "users" "not-a-hex-id"
      [("name", Json.str "Ana")]).2.1 usersSchema (some "age is a required property")
      (by decide) (by decide)).2
  · exact ((C1_gate_order demoCtx "users" "not-a-hex-id" anaDoc).2.2.1
      usersSchema none (by decide) (by decide)).2.2
  · exact ((C1_gate_order demoCtx "users" "000000000000000000000007" anaDoc).2.2.2
      usersSchema none (.oid 7) (by decide) (by decide) (by decide)).1

/-- **C4**: the identifier codec rejects malformed strings (wrong
length or non-hex characters) with an explicit `none` marker rather
than an exception, and on a known collection GET, PUT and DELETE then
answer 400 "Invalid object ID" with no storage call attempted and the
store untouched — never a 500. -/
theorem C4_malformed_id (ctx : Ctx) (c object_id : String) (data : Doc) :
    ((object_id.data.length ≠ 24 ∨ object_id.data.all isHexChar = false) →
      objectid_validator object_id = none) ∧
    (∀ schema, dictGet ctx.schemas c = some schema →
      objectid_validator object_id = none →
      get_object ctx c object_id = ⟨⟨400, jerr "Invalid object ID"⟩, ctx.store, []⟩ ∧
      delete_object ctx c object_id = ⟨⟨400, jerr "Invalid object ID"⟩, ctx.store, []⟩ ∧
      (update_object ctx c object_id data).resp.status = 400 ∧
      (update_object ctx c object_id data).ops = [] ∧
      (update_object ctx c object_id data).store = ctx.store) := by
  constructor
  · rintro (h | h)
    · have h1 : (object_id.data.length == 24) = false := beq_eq_false_iff_ne.mpr h
      simp only [objectid_validator, h1, Bool.false_and]
      simp
    · simp only [objectid_validator, h, Bool.and_false]
      simp
  · intro schema hc hid
    refine ⟨get_object_badid _ _ _ _ hc hid, delete_object_badid _ _ _ _ hc hid, ?_⟩
    rcases hv : validate_json data schema with ⟨b, em⟩
    cases b
    · rw [update_object_invalid _ _ _ _ _ _ hc hv]
      exact ⟨rfl, rfl, rfl⟩
    · rw [update_object_badid _ _ _ _ _ _ hc hv hid]
      exact ⟨rfl, rfl, rfl⟩

/-- Witness for C4: "abc" has the wrong length, so the codec rejects
it and all three identified operations 400 without a storage call. -/
theorem C4_malformed_id_witness :
    objectid_validator "abc" = none ∧
    get_object demoCtx2 "users" "abc" =
      ⟨⟨400, jerr "Invalid object ID"⟩, demoCtx2.store, []⟩ ∧
    (update_object demoCtx2 "users" "abc" anaDoc).ops = [] := by
  refine ⟨(C4_malformed_id demoCtx2 "users" "abc" anaDoc).1 (Or.inl (by decide)), ?_, ?_⟩
  · exact ((C4_malformed_id demoCtx2 "users" "abc" anaDoc).2 usersSchema
      (by decide) (by decide)).1
  · exact ((C4_malformed_id demoCtx2 "users" "abc" anaDoc).2 usersSchema
      (by decide) (by decide)).2.2.2.1

/-- **C9**: a PUT or DELETE with a well-formed identifier matching no
stored document returns 404 and leaves the storage state exactly as it
was: the update uses no upsert (nothing is created) and the delete
removes nothing. -/
theorem C9_no_match_no_write (ctx : Ctx) (c object_id : String) (data : Doc)
    (schema : Json) (em : Option String) (i : Json)
    (hc : dictGet ctx.schemas c = some schema)
    (hv : validate_json data schema = (true, em))
    (hid : objectid_validator object_id = some i)
    (hdb : ctx.dbFail = none)
    (hmiss : find_one ctx.store c i = none) :
    update_object ctx c object_id data =
      ⟨⟨404, jerr "Object not found"⟩, ctx.store, [.updateOne c i data]⟩ ∧
    delete_object ctx c object_id =
      ⟨⟨404, jerr "Object not found"⟩, ctx.store, [.deleteOne c i]⟩ := by
  have hall : ∀ d ∈ getColl ctx.store c, idMatches d i = false := by
    intro d hd
    have h1 := List.find?_eq_none.mp hmiss d hd
    simpa using h1
  have hupd : updateDocs i data (getColl ctx.store c) = none :=
    (updateDocs_eq_none_iff i data _).mpr hall
  have hrem : removeDoc i (getColl ctx.store c) = none :=
    (removeDoc_eq_none_iff i _).mpr hall
  exact ⟨update_object_nomatch ctx c object_id data i schema em ctx.store hc hv hid hdb
      (update_one_nomatch _ _ _ _ hupd),
    delete_object_nomatch ctx c object_id i schema ctx.store hc hid hdb
      (delete_one_nomatch _ _ _ hrem)⟩

/-- Witness for C9: updating or deleting ObjectId 6 in a store that
only holds ObjectId 5 404s and changes nothing. -/
theorem C9_no_match_no_write_witness :
    update_object demoCtx2 "users" "000000000000000000000006" anaDoc =
      ⟨⟨404, jerr "Object not found"⟩, demoCtx2.store,
       [.updateOne "users" (.oid 6) anaDoc]⟩ ∧
    delete_object demoCtx2 "users" "000000000000000000000006" =
      ⟨⟨404, jerr "Object not found"⟩, demoCtx2.store, [.deleteOne "users" (.oid 6)]⟩ :=
  C9_no_match_no_write demoCtx2 "users" "000000000000000000000006" anaDoc usersSchema
    none (.oid 6) (by decide) (by decide) (by decide) rfl (by decide)

/-- A context whose liveness probe raises a `PyMongoError` that is not
a `ServerSelectionTimeoutError` (e.g. `OperationFailure` on bad
credentials in `MONGO_URI`). -/
def authFailCtx : Ctx :=
  { schemas := [("users", usersSchema)], store := [],
    dbFail := some "Authentication failed.", fresh := 7,
    ping := .otherError "Authentication failed." }

/-- Counterexample to C8 as stated: not every storage failure is
caught at the handler boundary — `healthcheck` names only
`ServerSelectionTimeoutError` in its `except` clause, so a probe
raising any other `PyMongoError` escapes the handler uncaught instead
of being converted to a JSON response. -/
theorem C8_cex_health_uncaught :
    healthcheck authFailCtx = .uncaught "Authentication failed." := rfl

/-- **C8 (amended)**: every storage failure in a CRUD handler is
caught at the handler boundary (the CRUD handlers catch the broad
`PyMongoError`) and converted to a 500 JSON response carrying the
backend error text. The health endpoint catches only
`ServerSelectionTimeoutError`: it answers 200 "healthy" on a live
probe and 503 "unhealthy" with error detail on a timeout, but any
other `PyMongoError` raised by the probe escapes the handler uncaught
(the framework's error page, not a handler-boundary JSON response). -/
theorem C8_backend_errors (ctx : Ctx) (c object_id : String) (data : Doc)
    (schema : Json) (em : Option String) (i : Json) (e : String)
    (hc : dictGet ctx.schemas c = some schema)
    (hv : validate_json data schema = (true, em))
    (hid : objectid_validator object_id = some i)
    (hdb : ctx.dbFail = some e) :
    (create_object ctx c data).resp = ⟨500, jerr ("Database error: " ++ e)⟩ ∧
    (get_object ctx c object_id).resp = ⟨500, jerr ("Database error: " ++ e)⟩ ∧
    (update_object ctx c object_id data).resp = ⟨500, jerr ("Database error: " ++ e)⟩ ∧
    (delete_object ctx c object_id).resp = ⟨500, jerr ("Database error: " ++ e)⟩ ∧
    (ctx.ping = .ok →
      healthcheck ctx = .response ⟨200, Json.obj [("status", Json.str "healthy")]⟩) ∧
    (ctx.ping = .timeout →
      healthcheck ctx = .response ⟨503, Json.obj [("status", Json.str "unhealthy"),
        ("error", Json.str "Cannot connect to MongoDB")]⟩) ∧
    (∀ e2, ctx.ping = .otherError e2 → healthcheck ctx = .uncaught e2) :=
  ⟨by rw [create_object_dbfail ctx c data schema em e hc hv hdb],
    by rw [get_object_dbfail ctx c object_id i schema e hc hid hdb],
    by rw [update_object_dbfail ctx c object_id data i schema em e hc hv hid hdb],
    by rw [delete_object_dbfail ctx c object_id i schema e hc hid hdb],
    fun hp => by simp [healthcheck, hp],
    fun hp => by simp [healthcheck, hp],
    fun e2 hp => by simp [healthcheck, hp]⟩

/-- A context whose backend is down: every storage call raises, the
liveness probe times out on server selection. -/
def failCtx : Ctx :=
  { schemas := [("users", usersSchema)], store := [], dbFail := some "connection refused",
    fresh := 7, ping := .timeout }

/-- Witness for C8 (amended): with the backend down, POST answers 500
with the error text and the health endpoint answers 503 "unhealthy";
with a non-timeout probe failure, the exception escapes uncaught. -/
theorem C8_backend_errors_witness :
    (create_object failCtx "users" anaDoc).resp =
      ⟨500, jerr "Database error: connection refused"⟩ ∧
    healthcheck failCtx = .response ⟨503, Json.obj [("status", Json.str "unhealthy"),
      ("error", Json.str "Cannot connect to MongoDB")]⟩ ∧
    healthcheck authFailCtx = .uncaught "Authentication failed." := by
  have h := C8_backend_errors failCtx "users" "000000000000000000000005" anaDoc
    usersSchema none (.oid 5) "connection refused" (by decide) (by decide) (by decide) rfl
  have h2 := C8_backend_errors authFailCtx "users" "000000000000000000000005" anaDoc
    usersSchema none (.oid 5) "Authentication failed." (by decide) (by decide)
    (by decide) rfl
  exact ⟨h.1, h.2.2.2.2.2.1 rfl, h2.2.2.2.2.2.2 "Authentication failed." rfl⟩

/-- MongoDB's unique `_id` index: no two stored documents of one
collection share an `_id`. -/
def uniqueIds : List Doc → Bool
  | [] => true
  | d :: rest =>
      rest.all (fun e => decide (dictGet e "_id" ≠ dictGet d "_id")) && uniqueIds rest

theorem removeDoc_no_second (i : Json) (l l' : List Doc)
    (hu : uniqueIds l = true) (h : removeDoc i l = some l') :
    ∀ e ∈ l', idMatches e i = false := by
  induction l generalizing l' with
  | nil => simp [removeDoc] at h
  | cons d rest ih =>
      have hu1 : (∀ e ∈ rest, dictGet e "_id" ≠ dictGet d "_id") ∧ uniqueIds rest = true := by
        simpa [uniqueIds, Bool.and_eq_true, List.all_eq_true] using hu
      rcases hm : idMatches d i with hf | ht
      · simp only [removeDoc, hm] at h
        rcases ho : removeDoc i rest with _ | rest'
        · rw [ho] at h
          exact Option.noConfusion h
        · rw [ho] at h
          have h2 : l' = d :: rest' := by simpa using h.symm
          subst h2
          intro e he
          rcases List.mem_cons.mp he with he | he
          · rw [he]
            exact hm
          · exact ih rest' hu1.2 ho e he
      · simp only [removeDoc, hm] at h
        have hl' : l' = rest := by simpa using h.symm
        subst hl'
        intro e he
        have hdm : dictGet d "_id" = some i := of_decide_eq_true hm
        have hne := hu1.1 e he
        rw [hdm] at hne
        simp only [idMatches]
        rw [decide_eq_false_iff_not]
        exact hne

/-- Counterexample to C5 as stated: the not-found message is NOT
operation-specific — GET, PUT and DELETE all answer the identical body
`{"error": "Object not found"}` for the same absent identifier. -/
theorem C5_cex_shared_message :
    (get_object demoCtx2 "users" "000000000000000000000006").resp.body =
      (update_object demoCtx2 "users" "000000000000000000000006" anaDoc).resp.body ∧
    (update_object demoCtx2 "users" "000000000000000000000006" anaDoc).resp.body =
      (delete_object demoCtx2 "users" "000000000000000000000006").resp.body ∧
    (get_object demoCtx2 "users" "000000000000000000000006").resp =
      ⟨404, jerr "Object not found"⟩ := by
  refine ⟨?_, ?_, ?_⟩ <;> decide

/-- **C5 (amended)**: for a well-formed identifier matching no stored
document, GET, PUT and DELETE each return 404 — never 500 — all with
the same body `{"error": "Object not found"}` (the messages are shared,
not operation-specific); deleting an existing document twice yields 200
the first time and 404 the second. -/
theorem C5_notfound_404 (ctx : Ctx) (c object_id : String) (data : Doc)
    (schema : Json) (em : Option String) (i : Json)
    (hc : dictGet ctx.schemas c = some schema)
    (hv : validate_json data schema = (true, em))
    (hid : objectid_validator object_id = some i)
    (hdb : ctx.dbFail = none) :
    (find_one ctx.store c i = none →
      get_object ctx c object_id =
        ⟨⟨404, jerr "Object not found"⟩, ctx.store, [.findOne c i]⟩ ∧
      update_object ctx c object_id data =
        ⟨⟨404, jerr "Object not found"⟩, ctx.store, [.updateOne c i data]⟩ ∧
      delete_object ctx c object_id =
        ⟨⟨404, jerr "Object not found"⟩, ctx.store, [.deleteOne c i]⟩) ∧
    (∀ docs', uniqueIds (getColl ctx.store c) = true →
      removeDoc i (getColl ctx.store c) = some docs' →
      delete_object ctx c object_id =
        ⟨⟨200, Json.obj [("message", Json.str "Object deleted")]⟩,
         setColl ctx.store c docs', [.deleteOne c i]⟩ ∧
      delete_object { ctx with store := setColl ctx.store c docs' } c object_id =
        ⟨⟨404, jerr "Object not found"⟩, setColl ctx.store c docs', [.deleteOne c i]⟩) := by
  constructor
  · intro hmiss
    have hall : ∀ d ∈ getColl ctx.store c, idMatches d i = false := by
      intro d hd
      simpa using List.find?_eq_none.mp hmiss d hd
    have hupd : updateDocs i data (getColl ctx.store c) = none :=
      (updateDocs_eq_none_iff i data _).mpr hall
    have hrem : removeDoc i (getColl ctx.store c) = none :=
      (removeDoc_eq_none_iff i _).mpr hall
    exact ⟨get_object_notfound ctx c object_id i schema hc hid hdb hmiss,
      update_object_nomatch ctx c object_id data i schema em ctx.store hc hv hid hdb
        (update_one_nomatch _ _ _ _ hupd),
      delete_object_nomatch ctx c object_id i schema ctx.store hc hid hdb
        (delete_one_nomatch _ _ _ hrem)⟩
  · intro docs' hu hrm
    have hfirst := delete_object_deleted ctx c object_id i schema
      (setColl ctx.store c docs') hc hid hdb (delete_one_match _ _ _ _ hrm)
    have hnone : removeDoc i docs' = none :=
      (removeDoc_eq_none_iff i docs').mpr (removeDoc_no_second i _ docs' hu hrm)
    have hnone2 : removeDoc i (getColl (setColl ctx.store c docs') c) = none := by
      rw [getColl_setColl]
      exact hnone
    have hsecond := delete_object_nomatch { ctx with store := setColl ctx.store c docs' }
      c object_id i schema (setColl ctx.store c docs') hc hid hdb
      (delete_one_nomatch _ _ _ hnone2)
    exact ⟨hfirst, hsecond⟩

/-- Witness for C5 (amended): with only ObjectId 5 stored, GET of 6
404s; DELETE of 5 succeeds once (200) and 404s on the repeat. -/
theorem C5_notfound_404_witness :
    get_object demoCtx2 "users" "000000000000000000000006" =
      ⟨⟨404, jerr "Object not found"⟩, demoCtx2.store, [.findOne "users" (.oid 6)]⟩ ∧
    delete_object demoCtx2 "users" "000000000000000000000005" =
      ⟨⟨200, Json.obj [("message", Json.str "Object deleted")]⟩,
       setColl demoCtx2.store "users" [], [.deleteOne "users" (.oid 5)]⟩ ∧
    delete_object { demoCtx2 with store := setColl demoCtx2.store "users" [] }
        "users" "000000000000000000000005" =
      ⟨⟨404, jerr "Object not found"⟩, setColl demoCtx2.store "users" [],
       [.deleteOne "users" (.oid 5)]⟩ := by
  have h1 := C5_notfound_404 demoCtx2 "users" "000000000000000000000006" anaDoc
    usersSchema none (.oid 6) (by decide) (by decide) (by decide) rfl
  have h2 := C5_notfound_404 demoCtx2 "users" "000000000000000000000005" anaDoc
    usersSchema none (.oid 5) (by decide) (by decide) (by decide) rfl
  have h3 := h2.2 [] (by decide) (by decide)
  exact ⟨(h1.1 (by decide)).1, h3.1, h3.2⟩

/-- **C10**: PUT validates the body against the collection's full
schema before the merge-style update: if the schema requires a field
the body omits, the request 400s with no storage call and an untouched
store, even though the update itself has `$set` merge semantics. -/
theorem C10_required_guard (ctx : Ctx) (c object_id : String) (data : Doc)
    (schema : Json) (r : String)
    (hc : dictGet ctx.schemas c = some schema)
    (hr : r ∈ requiredOf schema)
    (hmiss : dictGet data r = none) :
    (validate_json data schema).1 = false ∧
    (update_object ctx c object_id data).resp.status = 400 ∧
    (update_object ctx c object_id data).ops = [] ∧
    (update_object ctx c object_id data).store = ctx.store := by
  have hfind : ((requiredOf schema).find? (fun x => (dictGet data x).isNone)).isSome := by
    rw [List.find?_isSome]
    exact ⟨r, hr, by simp [hmiss]⟩
  rcases ho : (requiredOf schema).find? (fun x => (dictGet data x).isNone) with _ | r'
  · rw [ho] at hfind
    simp at hfind
  · have hkw : (validate_json.validateKeywords data schema).1 = false := by
      simp [validate_json.validateKeywords, ho]
    have hval : (validate_json data schema).1 = false := by
      simp only [validate_json]
      split
      · split
        · exact hkw
        · rfl
      · exact hkw
    refine ⟨hval, ?_⟩
    rcases hvp : validate_json data schema with ⟨b, em⟩
    rw [hvp] at hval
    simp only at hval
    subst hval
    rw [update_object_invalid ctx c object_id data schema em hc hvp]
    exact ⟨rfl, rfl, rfl⟩

/-- Witness for C10: `{"name": "Ana"}` omits the required `age`, so the
PUT 400s without touching storage. -/
theorem C10_required_guard_witness :
    (validate_json [("name", Json.str "Ana")] usersSchema).1 = false ∧
    (update_object demoCtx2 "users" "000000000000000000000005"
      [("name", Json.str "Ana")]).resp.status = 400 ∧
    (update_object demoCtx2 "users" "000000000000000000000005"
      [("name", Json.str "Ana")]).ops = [] := by
  have h := C10_required_guard demoCtx2 "users" "000000000000000000000005"
    [("name", Json.str "Ana")] usersSchema "age" (by decide) (by decide) (by decide)
  exact ⟨h.1, h.2.1, h.2.2.1⟩

/-- A bare JSON-Schema file with no `collection_name`/`schema`
envelope — the legacy variant the claim says the loader accepts. -/
def bareSchemaFile : String × Option Json :=
  ("users.json", some (Json.obj [("type", Json.str "object")]))

/-- Counterexample to C6 as stated: a bare JSON-Schema object file is
NOT accepted — the loader hits the missing key (`KeyError`) and aborts
startup (`exit(1)`), yielding no registry entry; the filename is never
consulted for a collection name. -/
theorem C6_cex_bare_form_rejected :
    load_schemas [bareSchemaFile] = .error "Erro ao carregar o esquema users.json" := rfl

/-- **C6 (amended)**: the loader accepts only the explicit
`{collection_name, schema}` envelope: such a `.json` file yields a
registry entry under its declared name, while a file lacking the
`collection_name` key (a bare JSON-Schema object) aborts the whole
load with an error — the filename minus extension is never used as a
collection name. -/
theorem C6_loader_envelope_only (fname c : String) (s definition : Json)
    (hext : endsWithStr fname ".json" = true) :
    load_schemas [(fname, some (Json.obj [("collection_name", Json.str c),
      ("schema", s)]))] = .ok [(c, s)] ∧
    (jlookup definition "collection_name" = none →
      load_schemas [(fname, some definition)] =
        .error ("Erro ao carregar o esquema " ++ fname)) := by
  constructor
  · simp [load_schemas, hext, jlookup, dictGet, dictSet]
  · intro h
    simp [load_schemas, hext, h]

/-- Witness for C6 (amended): an envelope file registers `users`; the
bare file aborts the load. -/
theorem C6_loader_envelope_only_witness :
    load_schemas [("users.json", some (Json.obj [("collection_name", Json.str "users"),
      ("schema", usersSchema)]))] = .ok [("users", usersSchema)] ∧
    load_schemas [("users.json", some (Json.obj [("type", Json.str "object")]))] =
      .error "Erro ao carregar o esquema users.json" := by
  have h := C6_loader_envelope_only "users.json" "users" usersSchema
    (Json.obj [("type", Json.str "object")]) (by decide)
  exact ⟨h.1, h.2 (by decide)⟩

/-- Counterexample to C2 as stated: `anaDoc` validates against the
`users` schema, yet the PUT carrying it (against an identifier that
matches nothing) answers 404 — so "validate succeeds iff the request
returns 2xx" is false as a biconditional over all requests. -/
theorem C2_cex_valid_but_404 :
    validate_json anaDoc usersSchema = (true, none) ∧
    (update_object demoCtx2 "users" "000000000000000000000006" anaDoc).resp.status = 404 := by
  refine ⟨?_, ?_⟩ <;> decide

/-- `insert_one` when the document carries no `_id` and the fresh
ObjectId is unused: the driver assigns it and appends the document. -/
theorem insert_one_fresh (store : Store) (c : String) (fresh : Nat) (data : Doc)
    (hid : dictGet data "_id" = none)
    (hfree : find_one store c (.oid fresh) = none) :
    insert_one store c fresh data =
      .ok (.oid fresh,
        setColl store c (getColl store c ++ [data ++ [("_id", Json.oid fresh)]])) := by
  have hnotsome : (dictGet data "_id").isSome = false := by simp [hid]
  have hstored : dictGet (data ++ [("_id", Json.oid fresh)]) "_id" = some (.oid fresh) :=
    dictGet_append_self data [] "_id" (Json.oid fresh) hid
  simp [insert_one, hnotsome, hstored, hfree]

theorem updateDocs_isSome_of_find (i : Json) (data : Doc) (l : List Doc) (d : Doc)
    (h : l.find? (fun d => idMatches d i) = some d) : (updateDocs i data l).isSome := by
  induction l with
  | nil => simp at h
  | cons e t ih =>
      rcases hm : idMatches e i with hf | ht
      · rw [List.find?_cons_of_neg _ (by simp [hm])] at h
        simp [updateDocs, hm, ih h]
      · simp [updateDocs, hm]

/-- **C2 (amended)**: a 2xx answer from POST or PUT on a known
collection implies the body validated; conversely a validated body
yields the 2xx success (201 for POST, 200 for PUT) provided the other
gates pass — a healthy backend, no `_id` collision for POST, and for
PUT a well-formed identifier matching a stored document. Without those
side conditions the biconditional fails (see the counterexample). -/
theorem C2_validation_vs_2xx (ctx : Ctx) (c object_id : String) (data : Doc)
    (schema : Json) (i : Json)
    (hc : dictGet ctx.schemas c = some schema) :
    (200 ≤ (create_object ctx c data).resp.status ∧
        (create_object ctx c data).resp.status < 300 →
      (validate_json data schema).1 = true) ∧
    (200 ≤ (update_object ctx c object_id data).resp.status ∧
        (update_object ctx c object_id data).resp.status < 300 →
      (validate_json data schema).1 = true) ∧
    ((validate_json data schema).1 = true → ctx.dbFail = none →
      dictGet data "_id" = none → find_one ctx.store c (.oid ctx.fresh) = none →
      (create_object ctx c data).resp.status = 201) ∧
    ((validate_json data schema).1 = true → ctx.dbFail = none →
      dictGet data "_id" = none → objectid_validator object_id = some i →
      find_one ctx.store c i ≠ none →
      (update_object ctx c object_id data).resp.status = 200) := by
  refine ⟨?_, ?_, ?_, ?_⟩
  · intro h2
    rcases hvp : validate_json data schema with ⟨b, em⟩
    cases b
    · rw [create_object_invalid ctx c data schema em hc hvp] at h2
      exact absurd h2.2 (by norm_num)
    · rfl
  · intro h2
    rcases hvp : validate_json data schema with ⟨b, em⟩
    cases b
    · rw [update_object_invalid ctx c object_id data schema em hc hvp] at h2
      exact absurd h2.2 (by norm_num)
    · rfl
  · intro hv hdb hnoid hfree
    rcases hvp : validate_json data schema with ⟨b, em⟩
    rw [hvp] at hv
    simp only at hv
    subst hv
    rw [create_object_inserted ctx c data schema em _ _ hc hvp hdb
      (insert_one_fresh ctx.store c ctx.fresh data hnoid hfree)]
  · intro hv hdb hnoid hid hfound
    rcases hvp : validate_json data schema with ⟨b, em⟩
    rw [hvp] at hv
    simp only at hv
    subst hv
    rcases hfo : find_one ctx.store c i with _ | d
    · exact absurd hfo hfound
    · have hsome := updateDocs_isSome_of_find i data (getColl ctx.store c) d hfo
      rcases ho : updateDocs i data (getColl ctx.store c) with _ | docs
      · rw [ho] at hsome
        simp at hsome
      · rw [update_object_matched ctx c object_id data i schema em
          (setColl ctx.store c docs) hc hvp hid hdb
          (update_one_match ctx.store c i data docs ho (Or.inl hnoid))]

/-- Witness for C2 (amended): POSTing the valid `anaDoc` to the demo
context answers 201, and PUTting it onto the stored document answers
200. -/
theorem C2_validation_vs_2xx_witness :
    (create_object demoCtx "users" anaDoc).resp.status = 201 ∧
    (update_object demoCtx2 "users" "000000000000000000000005" anaDoc).resp.status = 200 := by
  have h1 := (C2_validation_vs_2xx demoCtx "users" "x" anaDoc usersSchema
    (.oid 5) (by decide)).2.2.1 (by decide) rfl (by decide) (by decide)
  have h2 := (C2_validation_vs_2xx demoCtx2 "users" "000000000000000000000005" anaDoc
    usersSchema (.oid 5) (by decide)).2.2.2 (by decide) rfl (by decide) (by decide)
    (by decide)
  exact ⟨h1, h2⟩

/-- The storage state after a successful insert of `data` into `c`:
the document, extended with the assigned ObjectId, appended to the
collection. -/
def storeAfterCreate (ctx : Ctx) (c : String) (data : Doc) : Store :=
  setColl ctx.store c (getColl ctx.store c ++ [data ++ [("_id", Json.oid ctx.fresh)]])

/-- **C3**: create→read round-trip — POSTing a document `D` that is
valid for a known collection answers 201 with the fresh ObjectId
rendered as a 24-hex string, and GETting that very string afterwards
answers 200 with a body equal to `D` extended with the assigned `_id`
field, the identifier rendered as a string. -/
theorem C3_create_then_get (ctx : Ctx) (c : String) (data : Doc)
    (schema : Json) (em : Option String)
    (hc : dictGet ctx.schemas c = some schema)
    (hv : validate_json data schema = (true, em))
    (hdb : ctx.dbFail = none)
    (hnoid : dictGet data "_id" = none)
    (hfresh : ctx.fresh < 16 ^ 24)
    (hfree : find_one ctx.store c (.oid ctx.fresh) = none) :
    create_object ctx c data =
      ⟨⟨201, Json.obj [("message", Json.str "Object created"),
                       ("id", Json.str (oidToString ctx.fresh))]⟩,
       storeAfterCreate ctx c data, [.insertOne c data]⟩ ∧
    get_object { ctx with store := storeAfterCreate ctx c data } c
        (oidToString ctx.fresh) =
      ⟨⟨200, Json.obj (data ++ [("_id", Json.str (oidToString ctx.fresh))])⟩,
       storeAfterCreate ctx c data, [.findOne c (.oid ctx.fresh)]⟩ := by
  have hstored : dictGet (data ++ [("_id", Json.oid ctx.fresh)]) "_id" =
      some (.oid ctx.fresh) :=
    dictGet_append_self data [] "_id" (Json.oid ctx.fresh) hnoid
  constructor
  · exact create_object_inserted ctx c data schema em (Json.oid ctx.fresh)
      (storeAfterCreate ctx c data) hc hv hdb
      (insert_one_fresh ctx.store c ctx.fresh data hnoid hfree)
  · have hoid : objectid_validator (oidToString ctx.fresh) = some (.oid ctx.fresh) :=
      objectid_validator_oidToString ctx.fresh hfresh
    have hfree2 : (getColl ctx.store c).find? (fun d => idMatches d (.oid ctx.fresh)) =
        none := hfree
    have hmatch : idMatches (data ++ [("_id", Json.oid ctx.fresh)]) (.oid ctx.fresh) = true := by
      simp [idMatches, hstored]
    have hfind : find_one (storeAfterCreate ctx c data) c (.oid ctx.fresh) =
        some (data ++ [("_id", Json.oid ctx.fresh)]) := by
      unfold find_one storeAfterCreate
      rw [getColl_setColl, find?_append_of_none _ _ _ hfree2]
      simp [List.find?, hmatch]
    have hget := get_object_found { ctx with store := storeAfterCreate ctx c data } c
      (oidToString ctx.fresh) (.oid ctx.fresh) schema
      (data ++ [("_id", Json.oid ctx.fresh)]) hc hoid hdb hfind
    rw [hget]
    have hbody : dictSet (data ++ [("_id", Json.oid ctx.fresh)]) "_id"
        (Json.str (bsonStr ((dictGet (data ++ [("_id", Json.oid ctx.fresh)]) "_id").getD
          Json.null))) = data ++ [("_id", Json.str (oidToString ctx.fresh))] := by
      rw [hstored]
      rw [dictSet_append_of_none data _ _ _ hnoid]
      simp [dictSet, bsonStr]
    rw [hbody]

/-- Witness for C3: POSTing `anaDoc` to the demo context creates
ObjectId 7; GETting its hex string returns Ana with `_id` as that
string. -/
theorem C3_create_then_get_witness :
    create_object demoCtx "users" anaDoc =
      ⟨⟨201, Json.obj [("message", Json.str "Object created"),
                       ("id", Json.str (oidToString 7))]⟩,
       storeAfterCreate demoCtx "users" anaDoc, [.insertOne "users" anaDoc]⟩ ∧
    get_object { demoCtx with store := storeAfterCreate demoCtx "users" anaDoc } "users"
        (oidToString 7) =
      ⟨⟨200, Json.obj (anaDoc ++ [("_id", Json.str (oidToString 7))])⟩,
       storeAfterCreate demoCtx "users" anaDoc, [.findOne "users" (.oid 7)]⟩ :=
  C3_create_then_get demoCtx "users" anaDoc usersSchema none (by decide) (by decide)
    rfl (by decide) (by decide) (by decide)

theorem updateDocs_idem (i : Json) (data : Doc) (l l' : List Doc)
    (hnd : (data.map Prod.fst).Nodup)
    (hid : dictGet data "_id" = none ∨ dictGet data "_id" = some i)
    (h : updateDocs i data l = some l') :
    updateDocs i data l' = some l' := by
  induction l generalizing l' with
  | nil => simp [updateDocs] at h
  | cons d rest ih =>
      rcases hm : idMatches d i with hf | ht
      · simp only [updateDocs, hm] at h
        rcases ho : updateDocs i data rest with _ | rest'
        · rw [ho] at h
          exact Option.noConfusion h
        · rw [ho] at h
          have h2 : l' = d :: rest' := by simpa using h.symm
          subst h2
          simp only [updateDocs, hm]
          rw [ih rest' ho]
          rfl
      · simp only [updateDocs, hm] at h
        have h2 : l' = mergeSet d data :: rest := by simpa using h.symm
        subst h2
        have hgm : dictGet (mergeSet d data) "_id" = some i := by
          rcases hid with hid | hid
          · rw [dictGet_mergeSet_of_not_mem d data "_id"
              ((dictGet_eq_none_iff data "_id").mp hid)]
            exact of_decide_eq_true hm
          · exact dictGet_mergeSet_of_mem d data "_id" i hnd (mem_of_dictGet_eq_some hid)
        have hm2 : idMatches (mergeSet d data) i = true := by
          simp [idMatches, hgm]
        simp [updateDocs, hm2, mergeSet_idem d data hnd]

theorem update_one_ok_inv (store : Store) (c : String) (i : Json) (data : Doc)
    (matched : Nat) (store' : Store)
    (h : update_one store c i data = .ok (matched, store')) :
    (matched = 0 ∧ store' = store ∧ updateDocs i data (getColl store c) = none) ∨
    (matched = 1 ∧ ∃ docs, updateDocs i data (getColl store c) = some docs ∧
      store' = setColl store c docs ∧
      (dictGet data "_id" = none ∨ dictGet data "_id" = some i)) := by
  rcases ho : updateDocs i data (getColl store c) with _ | docs
  · left
    simp [update_one, ho] at h
    exact ⟨h.1.symm, h.2.symm, rfl⟩
  · right
    rcases hd : dictGet data "_id" with _ | v
    · simp [update_one, ho, hd] at h
      exact ⟨h.1.symm, docs, rfl, h.2.symm, Or.inl rfl⟩
    · by_cases hvi : v = i
      · subst hvi
        simp [update_one, ho, hd] at h
        exact ⟨h.1.symm, docs, rfl, h.2.symm, Or.inr rfl⟩
      · simp [update_one, ho, hd, hvi] at h

/-- **C7**: repeating an identical successful PUT returns 200 again
and leaves the stored state exactly as after the first PUT (the `$set`
merge is idempotent; request bodies are dicts, so their keys carry no
duplicates). -/
theorem C7_put_idempotent (ctx : Ctx) (c object_id : String) (data : Doc)
    (hnd : (data.map Prod.fst).Nodup)
    (h200 : (update_object ctx c object_id data).resp.status = 200) :
    (update_object { ctx with store := (update_object ctx c object_id data).store }
      c object_id data).resp.status = 200 ∧
    (update_object { ctx with store := (update_object ctx c object_id data).store }
      c object_id data).store = (update_object ctx c object_id data).store := by
  rcases hc : dictGet ctx.schemas c with _ | schema
  · rw [update_object_unknown ctx c object_id data hc] at h200
    exact absurd h200 (by norm_num)
  rcases hvp : validate_json data schema with ⟨b, em⟩
  cases b
  · rw [update_object_invalid ctx c object_id data schema em hc hvp] at h200
    exact absurd h200 (by norm_num)
  rcases hoid : objectid_validator object_id with _ | i
  · rw [update_object_badid ctx c object_id data schema em hc hvp hoid] at h200
    exact absurd h200 (by norm_num)
  rcases hdb : ctx.dbFail with _ | e
  · rcases hup : update_one ctx.store c i data with e | p
    · rw [update_object_uperr ctx c object_id data i schema em e hc hvp hoid hdb hup] at h200
      exact absurd h200 (by norm_num)
    · obtain ⟨matched, store'⟩ := p
      rcases update_one_ok_inv ctx.store c i data matched store' hup with
        ⟨hm0, hs, ho⟩ | ⟨hm1, docs, ho, hs, hidc⟩
      · subst hm0
        rw [update_object_nomatch ctx c object_id data i schema em store' hc hvp hoid
          hdb hup] at h200
        exact absurd h200 (by norm_num)
      · subst hm1
        subst hs
        have hfirst := update_object_matched ctx c object_id data i schema em
          (setColl ctx.store c docs) hc hvp hoid hdb hup
        have hstore_eq : (update_object ctx c object_id data).store =
            setColl ctx.store c docs := by rw [hfirst]
        rw [hstore_eq]
        have hredo : updateDocs i data (getColl (setColl ctx.store c docs) c) = some docs := by
          rw [getColl_setColl]
          exact updateDocs_idem i data _ docs hnd hidc ho
        have hup2 : update_one (setColl ctx.store c docs) c i data =
            .ok (1, setColl ctx.store c docs) := by
          have h3 := update_one_match (setColl ctx.store c docs) c i data docs hredo hidc
          rwa [setColl_setColl] at h3
        have hsecond := update_object_matched
          { schemas := ctx.schemas, store := setColl ctx.store c docs, dbFail := none,
            fresh := ctx.fresh, ping := ctx.ping } c object_id data i schema em
          (setColl ctx.store c docs) hc hvp hoid rfl hup2
        rw [hsecond]
        exact ⟨rfl, rfl⟩
  · rw [update_object_dbfail ctx c object_id data i schema em e hc hvp hoid hdb] at h200
    exact absurd h200 (by norm_num)

/-- `{"name": "Bob", "age": 31}`. -/
def bobDoc : Doc := [("name", Json.str "Bob"), ("age", Json.num 31)]

/-- Witness for C7: PUTting Bob onto stored ObjectId 5 succeeds; the
repeated PUT answers 200 and leaves the store as after the first. -/
theorem C7_put_idempotent_witness :
    (update_object { demoCtx2 with store :=
        (update_object demoCtx2 "users" "000000000000000000000005" bobDoc).store }
      "users" "000000000000000000000005" bobDoc).resp.status = 200 ∧
    (update_object { demoCtx2 with store :=
        (update_object demoCtx2 "users" "000000000000000000000005" bobDoc).store }
      "users" "000000000000000000000005" bobDoc).store =
      (update_object demoCtx2 "users" "000000000000000000000005" bobDoc).store :=
  C7_put_idempotent demoCtx2 "users" "000000000000000000000005" bobDoc
    (by decide) (by decide)
